import Mathlib

/-!
Shallow embedding of Sanctum's state-consistency layer (the persistence
routes of a moderation bot backend) and proofs about its behaviour.

Tables are modelled as lists of rows; a `DB` value is the whole store.
Each route handler becomes a pure function from the current store (plus
the request payload) to the new store and an HTTP-level outcome.  SQL
statements that auto-commit are modelled by threading the updated store
through; an `async with conn.transaction()` block is modelled by
returning the pre-transaction store when a statement inside it fails.
Statement failures that depend on the environment (a constraint or
connectivity error on a particular INSERT) are injected through an
explicit boolean parameter so that atomicity properties can be stated.
Server time (`now()` defaults) is passed in as a natural number.
-/

namespace Sanctum

/-- A JSON object with string values, enough for the `extra` payloads
(`author`, `reminder_text`) the routes actually touch. -/
abbrev JsonObj := List (String × String)

/-- `extra ->> key` : text extraction from a jsonb object. -/
def jsonGet (obj : JsonObj) (key : String) : Option String :=
  (List.find? (fun p => p.1 == key) obj).map (fun p => p.2)

/-- `jsonb_set(obj, key, value)` with the default create-missing
behaviour of PostgreSQL. -/
def jsonSet (obj : JsonObj) (key value : String) : JsonObj :=
  if (List.find? (fun p => p.1 == key) obj).isSome then
    List.map (fun p => if p.1 == key then (p.1, value) else p) obj
  else
    obj ++ [(key, value)]

/-- Row of the `guilds` table. -/
structure GuildRow where
  id : Nat
  name : String
  owner_id : Nat
  left_at : Option Nat
deriving DecidableEq, Repr

/-- Row of the `guild_config` table. -/
structure GuildConfigRow where
  guild_id : Nat
  prefixes : Option (List String)
deriving DecidableEq, Repr

/-- Row of the `message_reports` table. -/
structure MessageReportRow where
  id : Nat
  guild_id : Nat
  message_id : Nat
  channel_id : Nat
  report_message_id : Nat
  dismissed : Bool
  actioned : Bool
deriving DecidableEq, Repr

/-- Row of the `message_reporters` table. -/
structure MessageReporterRow where
  guild_id : Nat
  message_id : Nat
  author_id : Nat
  reason : String
  original : Bool
  reported_at : Nat
deriving DecidableEq, Repr

/-- The closed enumeration of automod rule types
(`AutoModEventModel.type`). -/
inductive AutoModType where
  | messageSpam
  | massMentions
  | urlSpam
  | inviteSpam
  | messageContentSpam
  | autoDehoist
  | autoNormalize
deriving DecidableEq, Repr

/-- Wire string of an automod rule type, as it appears in request
payloads and error messages. -/
def AutoModType.wire : AutoModType → String
  | .messageSpam => "message-spam"
  | .massMentions => "mass-mentions"
  | .urlSpam => "url-spam"
  | .inviteSpam => "invite-spam"
  | .messageContentSpam => "message-content-spam"
  | .autoDehoist => "auto-dehoist"
  | .autoNormalize => "auto-normalize"

instance : BEq AutoModType := ⟨fun a b => decide (a = b)⟩

instance : LawfulBEq AutoModType where
  eq_of_beq h := by simpa [BEq.beq] using h
  rfl := by simp [BEq.beq]

/-- Punishment types (`AutoModPunishmentModel.type`). -/
inductive AutoModPunishmentType where
  | DELETE
  | WARN
  | MUTE
  | KICK
  | BAN
deriving DecidableEq, Repr

/-- Row of the `guild_automod_rules` table. -/
structure AutoModRuleRow where
  id : Nat
  guild_id : Nat
  type : AutoModType
  count : Nat
  seconds : Nat
  ignores : Option (List Nat)
deriving DecidableEq, Repr

/-- Row of the `guild_automod_punishment` table (1:1 with a rule id). -/
structure AutoModPunishmentRow where
  id : Nat
  type : AutoModPunishmentType
  duration : Option Nat
deriving DecidableEq, Repr

/-- Row of the `infractions` table (the insert statements use the
column name `user_id` for the target user). -/
structure InfractionRow where
  id : Nat
  guild_id : Nat
  user_id : Nat
  moderator_id : Nat
  action : Nat
  reason : String
  created_at : Nat
  expiry : Option Nat
  active : Bool
  extra : JsonObj
deriving DecidableEq, Repr

/-- Row of the `timers` table. -/
structure TimerRow where
  id : Nat
  event : String
  created : Nat
  expiry : Option Nat
  timezone : String
  extra : JsonObj
deriving DecidableEq, Repr

/-- The whole backing store.  `next_report_id` and `next_rule_id` model
the sequences behind the generated `id` columns of `message_reports`
and `guild_automod_rules`. -/
structure DB where
  guilds : List GuildRow
  guild_config : List GuildConfigRow
  message_reports : List MessageReportRow
  message_reporters : List MessageReporterRow
  guild_automod_rules : List AutoModRuleRow
  guild_automod_punishment : List AutoModPunishmentRow
  infractions : List InfractionRow
  timers : List TimerRow
  next_report_id : Nat
  next_rule_id : Nat
deriving DecidableEq, Repr

/-- Domain errors surfaced by the routes: `NotFound(thing, message=...)`
from errors.py, `HTTPException(status, detail)`, a pydantic validation
error, and a failure reported by the database for an executed
statement. -/
inductive ApiError where
  | notFound (thing : Option String) (message : Option String)
  | http (status : Nat) (detail : String)
  | validation (message : String)
  | dbError (message : String)
deriving DecidableEq, Repr

/-- Outcome of a route handler: the persisted store after the call, the
number of SQL statements that were actually sent to the database, and
the HTTP-level result. -/
structure OpResult (α : Type) where
  db : DB
  sqlIssued : Nat
  result : Except ApiError α
deriving Repr

/-! ## utils.py : build_update_query -/

/-- The loop body of `build_update_query`.  In the Python source the
loop variable `idx` is reassigned from `enumerate(columns, 0)` at the
top of every iteration, so the `idx += 1` at the bottom of the body
only survives past the final iteration; the accumulator receives
`f each column=$(enumerate index + 1)` in order. -/
def build_update_loop : List (Nat × String) → Nat → List String → Nat × List String
  | [], idx, builder => (idx, builder)
  | (k, col) :: rest, _, builder =>
      build_update_loop rest (k + 1) (builder ++ [col ++ "=$" ++ toString (k + 1)])

/-- `build_update_query(columns)` from utils.py: returns the final value
of `idx` and the comma-joined fragment. -/
def build_update_query (columns : List String) : Nat × String :=
  let out := build_update_loop columns.enum 0 []
  (out.1, String.intercalate ", " out.2)

/-- The contract the spec states for the builder: the count is the
number of columns, and the fragment joins `col=$N` with `N` sequential
from 1. -/
def build_update_query_spec (columns : List String) : Nat × String :=
  (columns.length,
   String.intercalate ", " (columns.enum.map (fun p => p.2 ++ "=$" ++ toString (p.1 + 1))))

/-! ## routers/guilds.py -/

/-- Request body of `PUT /guilds/{guild_id}` (`GuildPayload`); `left_at`
is accepted by the model but ignored by the insert statement. -/
structure GuildPayload where
  name : String
  owner_id : Nat
  left_at : Option Nat
deriving DecidableEq, Repr

/-- `create_guild`: INSERT INTO guilds (id, name, owner_id) VALUES (..)
ON CONFLICT (id) DO UPDATE SET name, owner_id, left_at = NULL.  A
single statement; `guilds.id` is the primary key, so the conflict
branch rewrites exactly the rows whose id matches. -/
def create_guild (db : DB) (guild_id : Nat) (guild : GuildPayload) : DB :=
  if db.guilds.any (fun r => r.id == guild_id) then
    { db with guilds := db.guilds.map (fun r =>
        if r.id == guild_id then
          { r with name := guild.name, owner_id := guild.owner_id, left_at := none }
        else r) }
  else
    { db with guilds := db.guilds ++
        [{ id := guild_id, name := guild.name, owner_id := guild.owner_id, left_at := none }] }

/-- `mark_guild_leave`: UPDATE guilds SET left_at = now() WHERE id=$1. -/
def mark_guild_leave (db : DB) (guild_id : Nat) (now : Nat) : DB :=
  { db with guilds := db.guilds.map (fun r =>
      if r.id == guild_id then { r with left_at := some now } else r) }

/-! ## routers/config.py -/

/-- `put_guild_prefixes`.  The Python guard `if not prefixes:` treats an
absent list and an empty list alike: both take the clearing UPDATE
(prefixes = NULL), which succeeds whatever rows it touches; a non-empty
list takes the single-statement upsert. -/
def put_guild_prefixes (db : DB) (guild_id : Nat) (prefixes : Option (List String)) :
    DB × Except ApiError (List String) :=
  match prefixes with
  | none =>
      ({ db with guild_config := db.guild_config.map (fun r =>
           if r.guild_id == guild_id then { r with prefixes := none } else r) },
       .ok [])
  | some [] =>
      ({ db with guild_config := db.guild_config.map (fun r =>
           if r.guild_id == guild_id then { r with prefixes := none } else r) },
       .ok [])
  | some ps =>
      if db.guild_config.any (fun r => r.guild_id == guild_id) then
        ({ db with guild_config := db.guild_config.map (fun r =>
             if r.guild_id == guild_id then { r with prefixes := some ps } else r) },
         .ok ps)
      else
        ({ db with guild_config := db.guild_config ++ [{ guild_id := guild_id, prefixes := some ps }] },
         .ok ps)

/-! ## routers/automod.py -/

/-- `AutoModPunishmentModel`. -/
structure AutoModPunishmentModel where
  duration : Option Nat
  type : AutoModPunishmentType
deriving DecidableEq, Repr

/-- `AutoModEventModel` (after pydantic field parsing, before the root
validator). -/
structure AutoModEventModel where
  guild_id : Nat
  type : AutoModType
  count : Nat
  seconds : Nat
  ignores : Option (List Nat)
  punishment : Option AutoModPunishmentModel
deriving DecidableEq, Repr

/-- The `check_punishment` root validator: raises a ValueError exactly
when the type is outside { auto-dehoist, auto-normalize } and no
punishment was supplied; any other combination passes through. -/
def check_punishment (type : AutoModType) (punishment : Option AutoModPunishmentModel) :
    Except ApiError Unit :=
  if type != .autoDehoist && type != .autoNormalize && punishment == none then
    .error (.validation (type.wire ++ " requires a punishment"))
  else
    .ok ()

/-- `add_new_automod_rule`: on one acquired connection, SELECT the
(guild_id, type) pair; 409 if present; otherwise, inside an explicit
transaction, INSERT the rule RETURNING id and, when a punishment is
attached, INSERT the punishment row.  `punishmentInsertFails` injects a
database failure of that second INSERT; the enclosing transaction then
rolls the rule INSERT back, so the pre-call store is returned. -/
def add_new_automod_rule (db : DB) (guild_id : Nat) (event : AutoModEventModel)
    (punishmentInsertFails : Bool) : DB × Except ApiError Nat :=
  match db.guild_automod_rules.find? (fun r => r.guild_id == guild_id && r.type == event.type) with
  | some _ => (db, .error (.http 409 "Rule already exists"))
  | none =>
    let rnum := db.next_rule_id
    let ruleRow : AutoModRuleRow :=
      { id := rnum, guild_id := guild_id, type := event.type,
        count := event.count, seconds := event.seconds, ignores := event.ignores }
    let db1 := { db with guild_automod_rules := db.guild_automod_rules ++ [ruleRow],
                         next_rule_id := rnum + 1 }
    match event.punishment with
    | some p =>
        if punishmentInsertFails then
          (db, .error (.dbError "guild_automod_punishment insert failed"))
        else
          ({ db1 with guild_automod_punishment := db1.guild_automod_punishment ++
               [{ id := rnum, type := p.type, duration := p.duration }] },
           .ok rnum)
    | none => (db1, .ok rnum)

/-! ## routers/reports.py -/

/-- `MessageReporter` request model (`original` defaults to false). -/
structure MessageReporter where
  author_id : Nat
  reason : String
  original : Bool := false
deriving DecidableEq, Repr

/-- `MessageReport` request model. -/
structure MessageReport where
  guild_id : Nat
  channel_id : Nat
  message_id : Nat
  report_message_id : Nat
  reporter : MessageReporter
deriving DecidableEq, Repr

/-- `create_guild_message_report`: two pool-level statements with no
surrounding transaction — the report INSERT auto-commits before the
reporter INSERT runs.  `reporterInsertFails` injects a database failure
of the second INSERT; the first INSERT's row remains persisted in that
case. -/
def create_guild_message_report (db : DB) (guild_id : Nat) (payload : MessageReport)
    (now : Nat) (reporterInsertFails : Bool) : DB × Except ApiError Nat :=
  let rid := db.next_report_id
  let reportRow : MessageReportRow :=
    { id := rid, guild_id := guild_id, message_id := payload.message_id,
      channel_id := payload.channel_id, report_message_id := payload.report_message_id,
      dismissed := false, actioned := false }
  let db1 := { db with message_reports := db.message_reports ++ [reportRow],
                       next_report_id := rid + 1 }
  if reporterInsertFails then
    (db1, .error (.dbError "message_reporters insert failed"))
  else
    let reporterRow : MessageReporterRow :=
      { guild_id := guild_id, message_id := payload.message_id,
        author_id := payload.reporter.author_id, reason := payload.reporter.reason,
        original := true, reported_at := now }
    ({ db1 with message_reporters := db1.message_reporters ++ [reporterRow] },
     .ok rid)

/-- Conflict target of the reporter upsert: the unique index named in
ON CONFLICT (message_id, author_id). -/
def reporterKeyMatch (message_id author_id : Nat) (r : MessageReporterRow) : Bool :=
  r.message_id == message_id && r.author_id == author_id

/-- `put_guild_message_reporter`: INSERT .. ON CONFLICT (message_id,
author_id) DO UPDATE SET reason = EXCLUDED.reason RETURNING the row.
On conflict only `reason` changes; `original` and the server-assigned
`reported_at` keep the stored values. -/
def put_guild_message_reporter (db : DB) (guild_id message_id : Nat)
    (payload : MessageReporter) (now : Nat) : DB × MessageReporterRow :=
  match db.message_reporters.find? (reporterKeyMatch message_id payload.author_id) with
  | some old =>
      ({ db with message_reporters := db.message_reporters.map (fun r =>
           if reporterKeyMatch message_id payload.author_id r then
             { r with reason := payload.reason }
           else r) },
       { old with reason := payload.reason })
  | none =>
      let row : MessageReporterRow :=
        { guild_id := guild_id, message_id := message_id, author_id := payload.author_id,
          reason := payload.reason, original := payload.original, reported_at := now }
      ({ db with message_reporters := db.message_reporters ++ [row] }, row)

/-- `PatchableMessageReport` (both fields default to None; the handler
tests them with `is not None`, so explicit false values count as
supplied). -/
structure PatchableMessageReport where
  dismissed : Option Bool := none
  actioned : Option Bool := none
deriving DecidableEq, Repr

/-- The SET clause of the report patch applied to one row (`actioned`
is appended to the column list before `dismissed`). -/
def applyReportPatch (patch : PatchableMessageReport) (r : MessageReportRow) :
    MessageReportRow :=
  let r1 := match patch.actioned with
    | some b => { r with actioned := b }
    | none => r
  match patch.dismissed with
  | some b => { r1 with dismissed := b }
  | none => r1

/-- `edit_guild_message_report`: collects the supplied columns, raises
HTTP 400 "Payload was empty" before issuing any SQL when none were
supplied, and otherwise runs one UPDATE .. RETURNING; a row must match
(guild_id, message_id) or the handler raises NotFound. -/
def edit_guild_message_report (db : DB) (guild_id message_id : Nat)
    (report : PatchableMessageReport) : OpResult MessageReportRow :=
  let columns :=
    (match report.actioned with | some _ => ["actioned"] | none => []) ++
    (match report.dismissed with | some _ => ["dismissed"] | none => [])
  if columns.isEmpty then
    { db := db, sqlIssued := 0, result := .error (.http 400 "Payload was empty") }
  else
    let rowMatch := fun (r : MessageReportRow) => r.guild_id == guild_id && r.message_id == message_id
    let db1 := { db with message_reports := db.message_reports.map (fun r =>
        if rowMatch r then applyReportPatch report r else r) }
    match db1.message_reports.filter rowMatch with
    | [] =>
        { db := db1, sqlIssued := 1,
          result := .error (.notFound (some ("Message report with message id " ++ toString message_id)) none) }
    | r :: _ => { db := db1, sqlIssued := 1, result := .ok r }

/-! ## routers/infractions.py -/

/-- `PatchableInfraction` (all fields optional). -/
structure PatchableInfraction where
  target_id : Option Nat := none
  moderator_id : Option Nat := none
  reason : Option String := none
  active : Option Bool := none
deriving DecidableEq, Repr

/-- Python truthiness of an optional string (`if inf.reason:`): absent
and empty are both falsy. -/
def truthyStr : Option String → Option String
  | some s => if s == "" then none else some s
  | none => none

/-- Python truthiness of an optional integer (`if inf.target_id:`):
absent and zero are both falsy. -/
def truthyNat : Option Nat → Option Nat
  | some n => if n == 0 then none else some n
  | none => none

/-- The SET clause of the infraction patch applied to one row.  The
whitelist is reason, target_id, moderator_id; the statement writes the
target through the column name `target_id`, which the insert and
delete statements call `user_id`. -/
def applyInfractionPatch (inf : PatchableInfraction) (r : InfractionRow) : InfractionRow :=
  let r1 := match truthyStr inf.reason with
    | some s => { r with reason := s }
    | none => r
  let r2 := match truthyNat inf.target_id with
    | some n => { r1 with user_id := n }
    | none => r1
  match truthyNat inf.moderator_id with
  | some n => { r2 with moderator_id := n }
  | none => r2

/-- `patch_guild_infraction`: validates the reason length first, builds
the column list, and then always issues the UPDATE — there is no guard
for an empty column list, so a patch that supplies no (truthy) field
sends `UPDATE infractions SET  WHERE ...` with a zero-column SET list,
which the database rejects as a syntax error. -/
def patch_guild_infraction (db : DB) (guild_id inf_id : Nat) (inf : PatchableInfraction) :
    OpResult InfractionRow :=
  let badReason : Bool := match truthyStr inf.reason with
    | some s => decide (s.length > 2000)
    | none => false
  if badReason then
    { db := db, sqlIssued := 0,
      result := .error (.http 400 ("Reason is too long (" ++
        toString ((truthyStr inf.reason).getD "").length ++ "/2000)")) }
  else
    let columns :=
      (match truthyStr inf.reason with | some _ => ["reason"] | none => []) ++
      (match truthyNat inf.target_id with | some _ => ["target_id"] | none => []) ++
      (match truthyNat inf.moderator_id with | some _ => ["moderator_id"] | none => [])
    let fragment := build_update_query columns
    if columns.isEmpty then
      { db := db, sqlIssued := 1,
        result := .error (.dbError ("syntax error in UPDATE with empty SET list" ++ fragment.2)) }
    else
      let rowMatch := fun (r : InfractionRow) => r.guild_id == guild_id && r.id == inf_id
      let db1 := { db with infractions := db.infractions.map (fun r =>
          if rowMatch r then applyInfractionPatch inf r else r) }
      match db1.infractions.filter rowMatch with
      | [] =>
          { db := db1, sqlIssued := 1,
            result := .error (.notFound (some ("Infraction with ID " ++ toString inf_id)) none) }
      | r :: _ => { db := db1, sqlIssued := 1, result := .ok r }

/-! ## routers/timers.py -/

/-- `PatchableUserReminder`. -/
structure PatchableUserReminder where
  reminder_text : Option String := none
  expiry : Option Nat := none
deriving DecidableEq, Repr

/-- WHERE clause of the reminder-text sub-update: id, event and the
payload's author must all match. -/
def reminderTextMatch (user_id reminder_id : Nat) (t : TimerRow) : Bool :=
  t.id == reminder_id && t.event == "reminder" &&
    jsonGet t.extra "author" == some (toString user_id)

/-- WHERE clause of the expiry sub-update: only event and id — the
statement carries no author condition. -/
def reminderExpiryMatch (reminder_id : Nat) (t : TimerRow) : Bool :=
  t.event == "reminder" && t.id == reminder_id

/-- `edit_user_reminder`: two independent conditional UPDATE statements.
The first (guarded by the truthiness of `reminder_text`) rewrites the
payload's reminder_text where id, event and author match, raising
NotFound on zero rows; when it raises, the second never runs.  The
second (guarded by the presence of `expiry`) sets `expiry` where only
event and id match, raising NotFound on zero rows. -/
def edit_user_reminder (db : DB) (user_id reminder_id : Nat)
    (patch : PatchableUserReminder) : OpResult Unit :=
  let step1 : OpResult Unit :=
    match truthyStr patch.reminder_text with
    | some text =>
        let db1 := { db with timers := db.timers.map (fun t =>
            if reminderTextMatch user_id reminder_id t then
              { t with extra := jsonSet t.extra "reminder_text" text }
            else t) }
        if db.timers.any (reminderTextMatch user_id reminder_id) then
          { db := db1, sqlIssued := 1, result := .ok () }
        else
          { db := db1, sqlIssued := 1,
            result := .error (.notFound none (some ("Unable to find a reminder belonging to " ++
              toString user_id ++ " with ID " ++ toString reminder_id))) }
    | none => { db := db, sqlIssued := 0, result := .ok () }
  match step1.result with
  | .error _ => step1
  | .ok _ =>
    match patch.expiry with
    | some e =>
        let db2 := { step1.db with timers := step1.db.timers.map (fun t =>
            if reminderExpiryMatch reminder_id t then { t with expiry := some e } else t) }
        if step1.db.timers.any (reminderExpiryMatch reminder_id) then
          { db := db2, sqlIssued := step1.sqlIssued + 1, result := .ok () }
        else
          { db := db2, sqlIssued := step1.sqlIssued + 1,
            result := .error (.notFound none (some ("Unable to find a reminder belonging to " ++
              toString user_id ++ " with ID " ++ toString reminder_id))) }
    | none => step1

/-! ## Shared fixtures and helper lemmas -/

/-- A store with no rows, as after schema creation. -/
def emptyDb : DB :=
  { guilds := [], guild_config := [], message_reports := [], message_reporters := [],
    guild_automod_rules := [], guild_automod_punishment := [], infractions := [],
    timers := [], next_report_id := 1, next_rule_id := 1 }

/-- Mapping a function that fixes every element of a list leaves the
list unchanged. -/
theorem list_map_eq_self {α : Type} (f : α → α) (l : List α)
    (h : ∀ x ∈ l, f x = x) : l.map f = l := by
  induction l with
  | nil => rfl
  | cons a t ih =>
      simp only [List.map_cons, List.cons.injEq]
      exact ⟨h a (by simp), ih (fun x hx => h x (by simp [hx]))⟩

/-! ## C6 : the update-fragment builder's contract -/

/-- Unrolling `build_update_loop` over an enumeration that starts at
`i`: the fragment pieces come out in order with indices `i+1, i+2, ...`,
and the returned counter is the initial one if the loop never ran, else
one past the last enumeration index. -/
theorem build_update_loop_spec (l : List String) (i idx0 : Nat) (acc : List String) :
    build_update_loop (l.enumFrom i) idx0 acc =
      ((if l.isEmpty then idx0 else i + l.length),
       acc ++ (l.enumFrom i).map (fun p => p.2 ++ "=$" ++ toString (p.1 + 1))) := by
  induction l generalizing i idx0 acc with
  | nil => simp [build_update_loop]
  | cons c cs ih =>
      rw [List.enumFrom_cons]
      show build_update_loop _ (i + 1) _ = _
      rw [ih (i + 1) (i + 1)]
      cases cs with
      | nil => simp [List.enumFrom_cons]
      | cons d ds => simp [List.enumFrom_cons]; omega

/-- C6: for every list of column names c1..cn (n ≥ 0),
`build_update_query` returns `(n, "c1=$1, c2=$2, ..., cn=$n")`: the
comma-joined fragment numbers placeholders sequentially from 1 and the
returned count is the number of columns, so the caller can continue
positional parameters at n+1 without collision. -/
theorem build_update_query_correct (columns : List String) :
    build_update_query columns = build_update_query_spec columns := by
  unfold build_update_query build_update_query_spec
  rw [show columns.enum = columns.enumFrom 0 from rfl,
      build_update_loop_spec columns 0 0 []]
  cases columns <;> simp

/-! ## C2 : the automod validation gate -/

/-- C2 counterexample: the claim says a rule of type auto-dehoist that
has a punishment attached is rejected by the validation gate, but
`check_punishment` only tests the missing-punishment direction and
accepts this input. -/
theorem check_punishment_accepts_dehoist_with_punishment :
    check_punishment .autoDehoist (some { duration := none, type := .BAN }) = .ok () := by
  rfl

/-- C2 (amended): the validation gate rejects with a validation error
exactly when the rule type is outside { auto-dehoist, auto-normalize }
and no punishment is supplied; a punishment attached to an auto-dehoist
or auto-normalize rule is accepted (the forbidden direction is not
enforced). -/
theorem check_punishment_error_iff (t : AutoModType) (p : Option AutoModPunishmentModel) :
    (∃ e, check_punishment t p = .error e) ↔
      (t ≠ .autoDehoist ∧ t ≠ .autoNormalize ∧ p = none) := by
  cases t <;> cases p <;> simp [check_punishment]

/-! ## C1 : report creation is not atomic -/

/-- A concrete message-report payload. -/
def demoReport : MessageReport :=
  { guild_id := 1, channel_id := 2, message_id := 3, report_message_id := 4,
    reporter := { author_id := 5, reason := "spam" } }

/-- C1 counterexample: with the reporter INSERT failing, the claim says
the report-row INSERT does not persist; but starting from an empty
store the failed call leaves the report row behind while returning the
error. -/
theorem create_report_partial_state_observable :
    (create_guild_message_report emptyDb 1 demoReport 0 true).1.message_reports ≠
      emptyDb.message_reports ∧
    (create_guild_message_report emptyDb 1 demoReport 0 true).2 =
      .error (.dbError "message_reporters insert failed") := by
  constructor
  · decide
  · rfl

/-- C1 (amended): `create_guild_message_report` runs its two INSERTs as
separate auto-committed statements with no transaction: when the
reporter INSERT fails, the report row is already persisted (partial
state is observable), and when it succeeds both rows are appended. -/
theorem create_report_two_autocommitted_statements (db : DB) (gid : Nat)
    (p : MessageReport) (now : Nat) :
    create_guild_message_report db gid p now true =
      ({ db with
           message_reports := db.message_reports ++
             [{ id := db.next_report_id, guild_id := gid, message_id := p.message_id,
                channel_id := p.channel_id, report_message_id := p.report_message_id,
                dismissed := false, actioned := false }],
           next_report_id := db.next_report_id + 1 },
       .error (.dbError "message_reporters insert failed")) ∧
    create_guild_message_report db gid p now false =
      ({ db with
           message_reports := db.message_reports ++
             [{ id := db.next_report_id, guild_id := gid, message_id := p.message_id,
                channel_id := p.channel_id, report_message_id := p.report_message_id,
                dismissed := false, actioned := false }],
           message_reporters := db.message_reporters ++
             [{ guild_id := gid, message_id := p.message_id,
                author_id := p.reporter.author_id, reason := p.reporter.reason,
                original := true, reported_at := now }],
           next_report_id := db.next_report_id + 1 },
       .ok db.next_report_id) := by
  exact ⟨rfl, rfl⟩

/-! ## C4 / C5 : addRule conflict detection and rule+punishment atomicity -/

/-- A concrete automod rule submission carrying a punishment. -/
def demoEvent : AutoModEventModel :=
  { guild_id := 1, type := .messageSpam, count := 5, seconds := 10,
    ignores := some [], punishment := some { duration := some 60, type := .BAN } }

/-- A concrete store that already holds a message-spam rule for guild 1
together with its punishment row. -/
def dbWithRule : DB :=
  { emptyDb with
      guild_automod_rules :=
        [{ id := 7, guild_id := 1, type := .messageSpam, count := 3, seconds := 4,
           ignores := some [] }],
      guild_automod_punishment := [{ id := 7, type := .KICK, duration := none }],
      next_rule_id := 8 }

/-- C4: when a rule row for the same (guild_id, type) pair already
exists, `add_new_automod_rule` fails with Conflict (409) and returns
the store unchanged — in particular the existing rule row and its
punishment row are untouched — whether or not the injected punishment
failure would have occurred. -/
theorem add_rule_conflict_leaves_store_unchanged (db : DB) (gid : Nat)
    (event : AutoModEventModel) (fail : Bool)
    (h : ∃ r ∈ db.guild_automod_rules, r.guild_id = gid ∧ r.type = event.type) :
    add_new_automod_rule db gid event fail = (db, .error (.http 409 "Rule already exists")) := by
  have hs : (db.guild_automod_rules.find?
      (fun r => r.guild_id == gid && r.type == event.type)).isSome := by
    rw [List.find?_isSome]
    obtain ⟨r, hr, h1, h2⟩ := h
    exact ⟨r, hr, by simp [h1, h2]⟩
  rcases hfind : db.guild_automod_rules.find?
      (fun r => r.guild_id == gid && r.type == event.type) with _ | r
  · rw [hfind] at hs; simp at hs
  · simp [add_new_automod_rule, hfind]

/-- C4 witness: a second addRule for (guild 1, message-spam) against
`dbWithRule` answers 409 and leaves the store as it was. -/
theorem add_rule_conflict_leaves_store_unchanged_witness :
    add_new_automod_rule dbWithRule 1 demoEvent false =
      (dbWithRule, .error (.http 409 "Rule already exists")) :=
  add_rule_conflict_leaves_store_unchanged dbWithRule 1 demoEvent false
    ⟨{ id := 7, guild_id := 1, type := .messageSpam, count := 3, seconds := 4,
       ignores := some [] }, by decide, by decide⟩

/-- C5: when the submitted rule carries a punishment and the punishment
INSERT fails, the enclosing transaction rolls the rule INSERT back: the
store after the call is exactly the store before it, and the call does
not report success. -/
theorem add_rule_punishment_atomic (db : DB) (gid : Nat) (event : AutoModEventModel)
    (pun : AutoModPunishmentModel) (hp : event.punishment = some pun) :
    (add_new_automod_rule db gid event true).1 = db ∧
    ∀ n, (add_new_automod_rule db gid event true).2 ≠ .ok n := by
  rcases hfind : db.guild_automod_rules.find?
      (fun r => r.guild_id == gid && r.type == event.type) with _ | r <;>
    simp [add_new_automod_rule, hfind, hp]

/-- C5 witness: adding `demoEvent` (which carries a punishment) to the
empty store with the punishment INSERT failing leaves the store
empty. -/
theorem add_rule_punishment_atomic_witness :
    (add_new_automod_rule emptyDb 1 demoEvent true).1 = emptyDb ∧
    (add_new_automod_rule emptyDb 1 demoEvent true).2 =
      .error (.dbError "guild_automod_punishment insert failed") :=
  ⟨(add_rule_punishment_atomic emptyDb 1 demoEvent
      { duration := some 60, type := .BAN } rfl).1, rfl⟩

/-! ## C9 : clearing prefixes never raises NotFound -/

/-- C9: `put_guild_prefixes` with an absent or empty list runs the
clearing UPDATE: every config row of the guild gets `prefixes = NULL`,
other rows are untouched, the call reports success (never NotFound),
and when no config row exists for the guild the store is returned
unchanged — a no-op UPDATE that still succeeds. -/
theorem put_guild_prefixes_clear_never_not_found (db : DB) (gid : Nat)
    (p : Option (List String)) (hp : p = none ∨ p = some []) :
    put_guild_prefixes db gid p =
      ({ db with guild_config := db.guild_config.map (fun r =>
           if r.guild_id == gid then { r with prefixes := none } else r) },
       .ok []) ∧
    ((∀ r ∈ db.guild_config, r.guild_id ≠ gid) →
      put_guild_prefixes db gid p = (db, .ok [])) := by
  have hmain : put_guild_prefixes db gid p =
      ({ db with guild_config := db.guild_config.map (fun r =>
           if r.guild_id == gid then { r with prefixes := none } else r) },
       .ok []) := by
    rcases hp with rfl | rfl <;> rfl
  refine ⟨hmain, fun hnone => ?_⟩
  rw [hmain]
  have : db.guild_config.map (fun r =>
      if r.guild_id == gid then { r with prefixes := none } else r) = db.guild_config := by
    refine list_map_eq_self _ _ (fun r hr => ?_)
    have : (r.guild_id == gid) = false := by
      simpa using hnone r hr
    simp [this]
  rw [this]

/-- A config row for guild 2 only, used to exercise the no-op clear on
guild 1. -/
def dbWithOtherConfig : DB :=
  { emptyDb with guild_config := [{ guild_id := 2, prefixes := some ["!"] }] }

/-- C9 witness: clearing the prefixes of guild 1, which has no config
row in `dbWithOtherConfig`, succeeds and leaves the store unchanged. -/
theorem put_guild_prefixes_clear_never_not_found_witness :
    put_guild_prefixes dbWithOtherConfig 1 none = (dbWithOtherConfig, .ok []) :=
  (put_guild_prefixes_clear_never_not_found dbWithOtherConfig 1 none (Or.inl rfl)).2
    (by decide)

/-! ## C3 : empty partial updates -/

/-- C3 counterexample: the claim says all three patch routes fail with
a client error before any SQL when the supplied field set is empty.
Against the empty store, the infraction patch issues one SQL statement
(the zero-column UPDATE, rejected by the database rather than by a
client-error guard) and the reminder patch issues no SQL yet reports
success — a silent no-op; only the message-report patch matches the
claim. -/
theorem empty_patch_not_rejected_before_sql :
    (patch_guild_infraction emptyDb 1 1 {}).sqlIssued = 1 ∧
    (patch_guild_infraction emptyDb 1 1 {}).result =
      .error (.dbError "syntax error in UPDATE with empty SET list") ∧
    (edit_user_reminder emptyDb 1 1 {}).sqlIssued = 0 ∧
    (edit_user_reminder emptyDb 1 1 {}).result = .ok () := by
  refine ⟨rfl, rfl, rfl, rfl⟩

/-- C3 (amended): with an empty supplied field set, only the
message-report patch rejects with a 400 client error before issuing any
SQL; the infraction patch always issues the UPDATE, so an empty field
set reaches the database as a zero-column SET list and fails there; and
the reminder patch skips both sub-updates, issuing no SQL and silently
succeeding. -/
theorem empty_patch_behaviour_per_route (db : DB) (gid mid iid uid rid : Nat) :
    edit_guild_message_report db gid mid {} =
      { db := db, sqlIssued := 0, result := .error (.http 400 "Payload was empty") } ∧
    (patch_guild_infraction db gid iid {}).db = db ∧
    (patch_guild_infraction db gid iid {}).sqlIssued = 1 ∧
    (patch_guild_infraction db gid iid {}).result =
      .error (.dbError "syntax error in UPDATE with empty SET list") ∧
    edit_user_reminder db uid rid {} = { db := db, sqlIssued := 0, result := .ok () } := by
  refine ⟨rfl, rfl, rfl, rfl, rfl⟩

/-! ## C7 : guild upsert semantics -/

/-- C7: the guild upsert overwrites (or creates) the row for the id
with the supplied name and owner and a NULL leave-timestamp: every
guilds row carrying the upserted id equals exactly that row, and hence
re-upserting after `mark_guild_leave` clears the prior left_at. -/
theorem create_guild_upsert_clears_left_at (db : DB) (gid : Nat) (g g2 : GuildPayload)
    (now : Nat) :
    (∀ r ∈ (create_guild db gid g).guilds, r.id = gid →
        r = { id := gid, name := g.name, owner_id := g.owner_id, left_at := none }) ∧
    (∀ r ∈ (create_guild (mark_guild_leave db gid now) gid g2).guilds, r.id = gid →
        r.left_at = none) := by
  have main : ∀ (db' : DB) (g' : GuildPayload),
      ∀ r ∈ (create_guild db' gid g').guilds, r.id = gid →
        r = { id := gid, name := g'.name, owner_id := g'.owner_id, left_at := none } := by
    intro db' g' r hr hid
    unfold create_guild at hr
    by_cases hany : db'.guilds.any (fun r => r.id == gid)
    · rw [if_pos hany] at hr
      simp only [List.mem_map] at hr
      obtain ⟨s, _, rfl⟩ := hr
      by_cases hs : s.id == gid
      · have hsid : s.id = gid := by simpa using hs
        simp [hs, hsid]
      · rw [if_neg hs] at hid ⊢
        exact absurd (by simp [hid]) hs
    · rw [if_neg hany] at hr
      rcases List.mem_append.mp hr with hmem | hmem
      · rw [List.any_eq_true] at hany
        exact absurd ⟨r, hmem, by simp [hid]⟩ hany
      · simpa using hmem
  refine ⟨main db g, fun r hr hid => ?_⟩
  rw [main (mark_guild_leave db gid now) g2 r hr hid]

/-- A store holding guild 42 marked as left. -/
def dbLeftGuild : DB :=
  { emptyDb with guilds := [{ id := 42, name := "Old", owner_id := 9, left_at := some 5 }] }

/-- C7 witness: re-upserting guild 42 of `dbLeftGuild` (which has
left_at set) with a new name and owner leaves its single row with the
new fields and a cleared left_at. -/
theorem create_guild_upsert_clears_left_at_witness :
    ({ id := 42, name := "Old", owner_id := 9, left_at := some 5 } : GuildRow) ∈
      dbLeftGuild.guilds ∧
    (create_guild dbLeftGuild 42 { name := "Foo", owner_id := 1, left_at := none }).guilds =
      [{ id := 42, name := "Foo", owner_id := 1, left_at := none }] ∧
    ({ id := 42, name := "Foo", owner_id := 1, left_at := none } : GuildRow) =
      { id := 42, name := "Foo", owner_id := 1, left_at := none } :=
  ⟨by decide, by decide,
   (create_guild_upsert_clears_left_at dbLeftGuild 42
       { name := "Foo", owner_id := 1, left_at := none }
       { name := "Foo", owner_id := 1, left_at := none } 0).1
     { id := 42, name := "Foo", owner_id := 1, left_at := none } (by decide) rfl⟩

/-! ## C8 : reporter upsert idempotence -/

/-- The no-conflict branch of the reporter upsert appends the fresh
row. -/
theorem put_reporter_insert_mr (db : DB) (gid mid : Nat) (p : MessageReporter) (t : Nat)
    (h : db.message_reporters.find? (reporterKeyMatch mid p.author_id) = none) :
    (put_guild_message_reporter db gid mid p t).1.message_reporters =
      db.message_reporters ++
        [{ guild_id := gid, message_id := mid, author_id := p.author_id,
           reason := p.reason, original := p.original, reported_at := t }] := by
  simp [put_guild_message_reporter, h]

/-- The conflict branch of the reporter upsert rewrites only the
`reason` of the rows matching the (message_id, author_id) key. -/
theorem put_reporter_update_mr (db : DB) (gid mid : Nat) (p : MessageReporter) (t : Nat)
    (old : MessageReporterRow)
    (h : db.message_reporters.find? (reporterKeyMatch mid p.author_id) = some old) :
    (put_guild_message_reporter db gid mid p t).1.message_reporters =
      db.message_reporters.map (fun r =>
        if reporterKeyMatch mid p.author_id r then { r with reason := p.reason } else r) := by
  simp [put_guild_message_reporter, h]

/-- C8: within one (guild_id, message_id), if the store holds no
reporter row yet for authors `a` and `b`, then after a first report by
`a`, a second report by `a` leaves exactly one reporter row for `a`: it
carries the latest reason but keeps the first insert's `original` flag
and `reported_at` timestamp; a report by the distinct author `b`
instead appends a fresh row with its own fields. -/
theorem reporter_upsert_idempotent (db : DB) (gid mid a b : Nat)
    (p1 p2 pb : MessageReporter) (t1 t2 tb : Nat)
    (hp1 : p1.author_id = a) (hp2 : p2.author_id = a) (hpb : pb.author_id = b)
    (ha : ∀ r ∈ db.message_reporters, reporterKeyMatch mid a r = false)
    (hb : ∀ r ∈ db.message_reporters, reporterKeyMatch mid b r = false)
    (hab : a ≠ b) :
    let db1 := (put_guild_message_reporter db gid mid p1 t1).1
    let db2 := (put_guild_message_reporter db1 gid mid p2 t2).1
    db2.message_reporters.filter (reporterKeyMatch mid a) =
      [{ guild_id := gid, message_id := mid, author_id := a, reason := p2.reason,
         original := p1.original, reported_at := t1 }] ∧
    (put_guild_message_reporter db1 gid mid pb tb).1.message_reporters =
      db1.message_reporters ++
        [{ guild_id := gid, message_id := mid, author_id := b, reason := pb.reason,
           original := pb.original, reported_at := tb }] := by
  intro db1 db2
  have hfinda : db.message_reporters.find? (reporterKeyMatch mid a) = none :=
    List.find?_eq_none.mpr (fun r hr => by simp [ha r hr])
  have hkey1 : reporterKeyMatch mid a
      { guild_id := gid, message_id := mid, author_id := a, reason := p1.reason,
        original := p1.original, reported_at := t1 } = true := by
    simp [reporterKeyMatch]
  have hmr1 : db1.message_reporters = db.message_reporters ++
      [{ guild_id := gid, message_id := mid, author_id := a, reason := p1.reason,
         original := p1.original, reported_at := t1 }] := by
    have := put_reporter_insert_mr db gid mid p1 t1 (by rw [hp1]; exact hfinda)
    rw [hp1] at this
    exact this
  have hfind2 : db1.message_reporters.find? (reporterKeyMatch mid a) =
      some { guild_id := gid, message_id := mid, author_id := a, reason := p1.reason,
             original := p1.original, reported_at := t1 } := by
    rw [hmr1, List.find?_append, hfinda]
    simp [hkey1]
  have hmr2 : db2.message_reporters =
      db.message_reporters ++
        [{ guild_id := gid, message_id := mid, author_id := a, reason := p2.reason,
           original := p1.original, reported_at := t1 }] := by
    have hupd := put_reporter_update_mr db1 gid mid p2 t2 _ (by rw [hp2]; exact hfind2)
    rw [hp2] at hupd
    rw [hupd, hmr1, List.map_append,
        list_map_eq_self _ db.message_reporters (fun r hr => by simp [ha r hr])]
    simp [hkey1]
  constructor
  · rw [hmr2, List.filter_append, List.filter_eq_nil_iff.mpr (fun r hr => by simp [ha r hr])]
    simp [reporterKeyMatch]
  · have hfindb : db1.message_reporters.find? (reporterKeyMatch mid b) = none := by
      rw [hmr1, List.find?_append, List.find?_eq_none.mpr (fun r hr => by simp [hb r hr])]
      simp [reporterKeyMatch]
      exact hab
    have := put_reporter_insert_mr db1 gid mid pb tb (by rw [hpb]; exact hfindb)
    rw [hpb] at this
    exact this

/-- C8 witness: two reports by author 5 for message 3 of guild 1
against the empty store collapse to one row with the second reason and
the first report's original flag and timestamp; a report by author 6
appends a fresh row. -/
theorem reporter_upsert_idempotent_witness :
    let db1 := (put_guild_message_reporter emptyDb 1 3
      { author_id := 5, reason := "r1", original := true } 10).1
    let db2 := (put_guild_message_reporter db1 1 3
      { author_id := 5, reason := "r2", original := false } 20).1
    db2.message_reporters.filter (reporterKeyMatch 3 5) =
      [{ guild_id := 1, message_id := 3, author_id := 5, reason := "r2",
         original := true, reported_at := 10 }] ∧
    (put_guild_message_reporter db1 1 3
      { author_id := 6, reason := "rb", original := false } 30).1.message_reporters =
      db1.message_reporters ++
        [{ guild_id := 1, message_id := 3, author_id := 6, reason := "rb",
           original := false, reported_at := 30 }] :=
  reporter_upsert_idempotent emptyDb 1 3 5 6
    { author_id := 5, reason := "r1", original := true }
    { author_id := 5, reason := "r2", original := false }
    { author_id := 6, reason := "rb", original := false }
    10 20 30 rfl rfl rfl (by decide) (by decide) (by decide)

/-! ## C10 : the expiry sub-update carries no ownership filter -/

/-- C10: an expiry-only reminder patch updates the expiry of every
timers row whose event is reminder and whose id matches, and reports
success, with a result that does not depend on the requesting user at
all — the `extra ->> author = user_id` condition appears only in the
reminder-text sub-update, so one user's expiry-only patch modifies
another user's reminder. -/
theorem reminder_expiry_patch_ignores_owner (db : DB) (uid rid e : Nat)
    (h : ∃ t ∈ db.timers, reminderExpiryMatch rid t = true) :
    edit_user_reminder db uid rid { reminder_text := none, expiry := some e } =
      { db := { db with timers := db.timers.map (fun t =>
          if reminderExpiryMatch rid t then { t with expiry := some e } else t) },
        sqlIssued := 1, result := .ok () } := by
  have hany : db.timers.any (reminderExpiryMatch rid) = true := by
    rw [List.any_eq_true]
    obtain ⟨t, ht, hm⟩ := h
    exact ⟨t, ht, hm⟩
  simp [edit_user_reminder, truthyStr, hany]

/-- A store holding one reminder owned (via the payload's author field)
by user 7. -/
def dbReminderOf7 : DB :=
  { emptyDb with timers :=
      [{ id := 1, event := "reminder", created := 0, expiry := some 50,
         timezone := "UTC", extra := [("author", "7")] }] }

/-- C10 witness: the stored reminder belongs to user 7, yet user 42's
expiry-only patch rewrites its expiry and succeeds. -/
theorem reminder_expiry_patch_ignores_owner_witness :
    jsonGet [("author", "7")] "author" ≠ some (toString 42) ∧
    edit_user_reminder dbReminderOf7 42 1 { reminder_text := none, expiry := some 99 } =
      { db := { emptyDb with timers :=
          [{ id := 1, event := "reminder", created := 0, expiry := some 99,
             timezone := "UTC", extra := [("author", "7")] }] },
        sqlIssued := 1, result := .ok () } :=
  ⟨by decide, reminder_expiry_patch_ignores_owner dbReminderOf7 42 1 99 (by decide)⟩

end Sanctum
